import Mathlib

/-!
Shallow embedding of the `ateam` agent-orchestration layer
(`src/ateam/BaseTool.py`, `src/ateam/base_agent.py`, `src/ateam/agent.py`,
`src/ateam/chat/agent.py`) with proofs of the spec's claims.

Python dynamic values are modelled by the inductive `PyVal`; dictionary keys
passed to `SharedState` by `PyKey` (so that the non-string case is
representable); exceptions by `PyExn` together with `Except`.
-/

namespace ATeam

/-- Python values that flow through the claims: `None`, strings, ints, bools. -/
inductive PyVal where
  | none
  | str (s : String)
  | int (n : Int)
  | bool (b : Bool)
deriving DecidableEq, Repr

/-- Python truthiness of a `PyVal`, as used by the `or` operator in
`response.output_parsed or response.output_text` and the chat branch tests. -/
def PyVal.truthy : PyVal → Bool
  | .none => false
  | .str s => s ≠ ""
  | .int n => n ≠ 0
  | .bool b => b

/-- Python `str(...)` on the values above (used when tool outputs are
stringified into the conversation). -/
def PyVal.toStr : PyVal → String
  | .none => "None"
  | .str s => s
  | .int n => toString n
  | .bool b => if b then "True" else "False"

/-- `startsWithChars s p`: the character list `p` begins the character list
`s` (helper for `strStartsWith`). -/
def startsWithChars : List Char → List Char → Bool
  | _, [] => true
  | [], _ :: _ => false
  | c :: cs, p :: ps => (c = p) && startsWithChars cs ps

/-- Python `s.startswith(pre)`, modelled over the character lists so it is
kernel-computable. -/
def strStartsWith (s pre : String) : Bool := startsWithChars s.data pre.data

/-- Keys handed to `SharedState.set` / `SharedState.get`: the string case and
representative non-string cases, so the `isinstance(key, str)` check is a real
branch. -/
inductive PyKey where
  | str (s : String)
  | int (n : Int)
  | noneKey
  | bool (b : Bool)
deriving DecidableEq, Repr

/-- Whether a key is a Python string (`isinstance(key, str)`). -/
def PyKey.isStr : PyKey → Bool
  | .str _ => true
  | _ => false

/-- The exceptions the embedded code can raise. -/
inductive PyExn where
  /-- `ValueError(msg)` -/
  | valueError (msg : String)
  /-- `TypeError` from the abc machinery at instantiation -/
  | typeError (msg : String)
  /-- pydantic `ValidationError` at tool construction -/
  | validationError
  /-- chat variant: `Exception('OpenAI API call failed: ...')` -/
  | apiFailure
  /-- chat variant: `Exception('Unexpected response from OpenAI: ...')` -/
  | unexpectedResponse
deriving DecidableEq, Repr

/-! ## SharedState (`src/ateam/BaseTool.py`, class `SharedState`)

`self.data` is a Python dict; it is modelled as an association list with
Python-dict update semantics (updating an existing key keeps its position,
a new key is appended). -/

/-- `d[k] = v` on a Python dict. -/
def dictSet (d : List (String × PyVal)) (k : String) (v : PyVal) :
    List (String × PyVal) :=
  if d.any (fun p => p.1 = k) then
    d.map (fun p => if p.1 = k then (k, v) else p)
  else
    d ++ [(k, v)]

/-- `d.get(k)` on a Python dict, without default. -/
def dictGet (d : List (String × PyVal)) (k : String) : Option PyVal :=
  (d.find? (fun p => p.1 = k)).map (fun p => p.2)

/-- `class SharedState`: wraps the dict `self.data`. -/
structure SharedState where
  data : List (String × PyVal)
deriving DecidableEq, Repr

/-- `SharedState.__init__`: `self.data = {}`. -/
def SharedState.init : SharedState := ⟨[]⟩

/-- `SharedState.set(key, value)`: raises `ValueError` on a non-string key,
otherwise `self.data[key] = value`. -/
def SharedState.set (st : SharedState) (key : PyKey) (value : PyVal) :
    Except PyExn SharedState :=
  match key with
  | .str s => .ok ⟨dictSet st.data s value⟩
  | _ => .error (.valueError "`key` must be a string")

/-- `SharedState.get(key, default=None)`: raises `ValueError` on a non-string
key, otherwise `self.data.get(key, default)`.  An omitted default is the
argument `PyVal.none`. -/
def SharedState.get (st : SharedState) (key : PyKey)
    (default : PyVal := PyVal.none) : Except PyExn PyVal :=
  match key with
  | .str s => .ok ((dictGet st.data s).getD default)
  | _ => .error (.valueError "`key` must be a string")

/-! ## Tool classes, agent construction (`src/ateam/agent.py` `Agent.__init__`,
`src/ateam/base_agent.py` `BaseAgent.__init__`)

A tool class is identified by its name together with the set of methods the
subclass defines (so the abc check on `run` is structural).  The class-level
`_shared_state` bindings — Python state attached to the classes themselves —
are modelled by a `World` mapping each tool class to the id of the
`SharedState` object it is bound to, if any; `SharedState()` object creation
is modelled by drawing a fresh id. -/

structure ToolClass where
  name : String
  definedMethods : List String
deriving DecidableEq, Repr

structure World where
  bindings : ToolClass → Option Nat
  nextStateId : Nat

/-- The remote-callable schema descriptor `openai.pydantic_function_tool(tool)`
generates for a tool class (collaborator; only its per-tool generation is
relevant here). -/
structure Schema where
  toolName : String
deriving DecidableEq, Repr

/-- The configuration fields both `__init__` bodies store on `self`.
Sampling floats (`temperature`, `top_p`) and the credentials are stored
verbatim and never influence control flow, so they are not tracked. -/
structure AgentCfg where
  role : String
  model : String
  tools : List ToolClass
  maxToolCalls : Int
  outputFormat : Option String
  verbose : Bool
deriving Repr

structure AgentObj where
  cfg : AgentCfg
  sharedStateId : Nat
  openaiToolsSchema : List Schema

/-- The `for tool in self.tools:` loop of both constructors: append the
generated schema descriptor and set `tool._shared_state = self.shared_state`. -/
def registerTools (sid : Nat) : List ToolClass → List Schema →
    (ToolClass → Option Nat) → List Schema × (ToolClass → Option Nat)
  | [], acc, b => (acc, b)
  | t :: ts, acc, b =>
      registerTools sid ts (acc ++ [⟨t.name⟩])
        (fun c => if c = t then some sid else b c)

/-- The shared constructor body: `self.tools = tools or []`,
`self.shared_state = SharedState()` (a fresh object), schema generation and
shared-state binding for every listed tool class. -/
def agentInitBody (w : World) (role model : String)
    (tools : Option (List ToolClass)) (maxToolCalls : Int)
    (outputFormat : Option String) (verbose : Bool) : AgentObj × World :=
  let toolList := tools.getD []
  let sid := w.nextStateId
  let reg := registerTools sid toolList [] w.bindings
  (⟨⟨role, model, toolList, maxToolCalls, outputFormat, verbose⟩, sid, reg.1⟩,
   ⟨reg.2, w.nextStateId + 1⟩)

/-- `Agent.__init__` from `src/ateam/agent.py` (the responses-API variant).
It performs no model-family compatibility check and never raises; the
`Except` return type makes it comparable with `BaseAgent.init`. -/
def Agent.init (w : World) (role model : String)
    (tools : Option (List ToolClass)) (maxToolCalls : Int)
    (outputFormat : Option String) (verbose : Bool) :
    Except PyExn (AgentObj × World) :=
  .ok (agentInitBody w role model tools maxToolCalls outputFormat verbose)

/-- The `ValueError` raised by the gemini guard. -/
def geminiError : PyExn :=
  .valueError "Gemini family of models do not support tools and structured output simultaneously."

/-- `BaseAgent.__init__` from `src/ateam/base_agent.py` (inherited by the
chat-completions variant `ateam.chat.Agent`): when the model starts with
`gemini-`, `output_format is not NOT_GIVEN` and `tools is not None`, raise;
otherwise run the shared constructor body. -/
def BaseAgent.init (w : World) (role model : String)
    (tools : Option (List ToolClass)) (maxToolCalls : Int)
    (outputFormat : Option String) (verbose : Bool) :
    Except PyExn (AgentObj × World) :=
  if strStartsWith model "gemini-" && outputFormat.isSome && tools.isSome then
    .error geminiError
  else
    .ok (agentInitBody w role model tools maxToolCalls outputFormat verbose)

/-- Whether an `Except` computation returned normally (did not raise). -/
def isOkE : Except PyExn α → Bool
  | .ok _ => true
  | .error _ => false

/-! ## Tool instantiation (`src/ateam/BaseTool.py`, `BaseTool.__init__` and
the abc contract on `run`) -/

structure ToolInstance where
  cls : ToolClass
  fields : List (String × PyVal)

/-- Instantiating a tool class `C(**kwargs)`.  `BaseTool` derives from `ABC`
and marks `run` with `@abstractmethod`, so Python's abc machinery raises
`TypeError` at instantiation when the class's method table leaves `run`
unimplemented — a structural check, performed before `BaseTool.__init__`
runs.  `BaseTool.__init__` then binds a fresh `SharedState` to the class if
it has none yet, and `super().__init__(**kwargs)` validates the field
assignments against the pydantic schema (collaborator; its verdict is the
parameter `fieldsValid`). -/
def instantiateTool (w : World) (c : ToolClass)
    (fields : List (String × PyVal)) (fieldsValid : Bool) :
    Except PyExn (ToolInstance × World) :=
  if "run" ∈ c.definedMethods then
    let w' : World :=
      match w.bindings c with
      | some _ => w
      | none => ⟨fun d => if d = c then some w.nextStateId else w.bindings d,
                 w.nextStateId + 1⟩
    if fieldsValid then .ok (⟨c, fields⟩, w') else .error .validationError
  else
    .error (.typeError
      ("Cannot instantiate abstract class " ++ c.name ++ " with abstract method run"))

/-! ## Conversational loop, responses variant (`src/ateam/agent.py`,
`Agent.run`)

The remote client is scripted: `script i` is what the client does on the
`i`-th call (`self.client.responses.parse(...)` either returns a response or
raises).  A `function_call` output item carries the pre-parsed tool instance
`output.parsed_arguments`; it is abstracted by the value its `run()` method
returns, which is all the loop observes of it. -/

/-- An item of `response.output`: a `message` answer item, a `function_call`
item, or any other item type (e.g. a reasoning item), which the loop's
`if`/`elif` chain silently skips. -/
inductive ROutput where
  | message (content : String)
  | functionCall (callId : String) (name : String) (arguments : String)
      (runResult : PyVal)
  | other
deriving DecidableEq, Repr

structure RResponse where
  output : List ROutput
  /-- `response.output_parsed` (`PyVal.none` when absent) -/
  outputParsed : PyVal
  /-- `response.output_text` -/
  outputText : String
deriving DecidableEq, Repr

/-- One scripted reaction of the remote client: respond, or raise. -/
inductive RRemote where
  | ok (r : RResponse)
  | exn
deriving DecidableEq, Repr

/-- Conversation records accumulated in `messages` by the responses variant. -/
inductive ConvMsg where
  | system (content : String)
  | user (content : String)
  /-- the `output` message item appended before returning -/
  | assistantMessage (content : String)
  | functionCall (callId name arguments : String)
  | functionCallOutput (callId output : String)
deriving DecidableEq, Repr

/-- Python `response.output_parsed or response.output_text`. -/
def pyOrText (parsed : PyVal) (text : String) : PyVal :=
  if parsed.truthy then parsed else .str text

/-- The inner `for output in response.output:` loop.  Returns `some answer`
when a `message` item is reached (the Python `return`), else `none`; together
with the extended conversation and the updated tool-execution count. -/
def processROutputs (parsed : PyVal) (text : String) :
    List ROutput → List ConvMsg → Nat → Option PyVal × List ConvMsg × Nat
  | [], msgs, tc => (none, msgs, tc)
  | .message c :: _, msgs, tc =>
      (some (pyOrText parsed text), msgs ++ [ConvMsg.assistantMessage c], tc)
  | .functionCall callId name args res :: rest, msgs, tc =>
      processROutputs parsed text rest
        (msgs ++ [ConvMsg.functionCall callId name args,
                  ConvMsg.functionCallOutput callId res.toStr]) (tc + 1)
  | .other :: rest, msgs, tc => processROutputs parsed text rest msgs tc

/-- A `run` call either returns a value or lets an exception propagate. -/
inductive RunRes where
  | ret (v : PyVal)
  | raise (e : PyExn)
deriving DecidableEq, Repr

/-- `f'An answer could not be provided after {self.max_tool_calls} tool calls.'` -/
def budgetSentinel (maxToolCalls : Int) : String :=
  "An answer could not be provided after " ++ toString maxToolCalls
    ++ " tool calls."

/-- Observable outcome of one `run` call: its result, the conversation built,
and how many remote calls were issued and tools executed. -/
structure RunOutcome (Msg : Type) where
  result : RunRes
  messages : List Msg
  remoteCalls : Nat
  toolExecs : Nat
deriving DecidableEq, Repr

/-- The `for _ in range(self.max_tool_calls):` loop of the responses-variant
`Agent.run`.  `i` indexes the next remote call, `fuel` the remaining
iterations; an API exception is caught and converted into the string
`'Error: OpenAI API call failed'`. -/
def respRunAux (maxToolCalls : Int) (script : Nat → RRemote) :
    Nat → Nat → List ConvMsg → Nat → Nat → RunOutcome ConvMsg
  | _, 0, msgs, calls, tools =>
      ⟨.ret (.str (budgetSentinel maxToolCalls)), msgs, calls, tools⟩
  | i, fuel + 1, msgs, calls, tools =>
      match script i with
      | .exn =>
          ⟨.ret (.str "Error: OpenAI API call failed"), msgs, calls + 1, tools⟩
      | .ok r =>
          match processROutputs r.outputParsed r.outputText r.output msgs tools with
          | (some v, msgs1, tools1) => ⟨.ret v, msgs1, calls + 1, tools1⟩
          | (none, msgs1, tools1) =>
              respRunAux maxToolCalls script (i + 1) fuel msgs1 (calls + 1) tools1

/-- `Agent.run(msg)` of `src/ateam/agent.py` against a scripted client:
seed the conversation with the system and user entries and run the loop. -/
def Agent.run (cfg : AgentCfg) (msg : String) (script : Nat → RRemote) :
    RunOutcome ConvMsg :=
  respRunAux cfg.maxToolCalls script 0 cfg.maxToolCalls.toNat
    [ConvMsg.system cfg.role, ConvMsg.user msg] 0 0

/-! ## Conversational loop, chat-completions variant
(`src/ateam/chat/agent.py`, `Agent.run`) -/

/-- One tool call of `choice.message.tool_calls`, its pre-parsed tool
instance abstracted by the value `run()` returns. -/
structure ChatToolCall where
  id : String
  name : String
  arguments : String
  runResult : PyVal
deriving DecidableEq, Repr

structure ChatMessage where
  /-- `message.tool_calls`; `[]` models both `None` and an empty list (falsy) -/
  toolCalls : List ChatToolCall
  /-- `message.parsed` (`PyVal.none` = Python `None`) -/
  parsed : PyVal
  /-- `message.content` (`str | None`) -/
  content : Option String
deriving DecidableEq, Repr

structure ChatChoice where
  message : ChatMessage
deriving DecidableEq, Repr

structure ChatResponse where
  choices : List ChatChoice
deriving DecidableEq, Repr

inductive CRemote where
  | ok (r : ChatResponse)
  | exn
deriving DecidableEq, Repr

/-- Conversation records accumulated by the chat-completions variant. -/
inductive ChatMsg where
  | system (content : String)
  | user (content : String)
  /-- `{"role": "assistant", "tool_calls": [dict(t) ...]}`, keeping
  (id, name, arguments) of each call -/
  | assistantToolCalls (calls : List (String × String × String))
  /-- `{"role": "tool", "content": ..., "tool_call_id": ...}` -/
  | toolOutput (callId content : String)
  | assistantContent (content : String)
deriving DecidableEq, Repr

/-- Truthiness of `message.content` (`None` and `""` are falsy). -/
def optStrTruthy : Option String → Bool
  | some s => s ≠ ""
  | none => false

/-- `message.content` as a Python value. -/
def pyOfContent : Option String → PyVal
  | some s => .str s
  | none => .none

/-- `output.message.parsed or output.message.content` (the returned answer). -/
def chatAnswerVal (parsed : PyVal) (content : Option String) : PyVal :=
  if parsed.truthy then parsed else pyOfContent content

/-- `output.message.content or str(output.message.parsed)` (the appended
assistant content). -/
def chatAnswerText (parsed : PyVal) (content : Option String) : String :=
  match content with
  | some s => if s ≠ "" then s else parsed.toStr
  | none => parsed.toStr

/-- Result of the `for output in response.choices:` loop: an answer was
returned, an exception was raised, or the loop fell through to the next
remote call. -/
inductive ChatStep where
  | answered (v : PyVal) (msgs : List ChatMsg) (tools : Nat)
  | moveOn (msgs : List ChatMsg) (tools : Nat)
  | raised (e : PyExn) (msgs : List ChatMsg) (tools : Nat)
deriving DecidableEq, Repr

/-- The `for output in response.choices:` loop: a choice with tool calls
appends the assistant tool-call record and, per call, executes the tool and
appends its stringified output; a choice with a truthy `parsed` or `content`
answers; any other choice raises the unexpected-response exception. -/
def processChoices : List ChatChoice → List ChatMsg → Nat → ChatStep
  | [], msgs, tc => .moveOn msgs tc
  | ch :: rest, msgs, tc =>
      let m := ch.message
      if m.toolCalls ≠ [] then
        processChoices rest
          (msgs
            ++ [ChatMsg.assistantToolCalls
                  (m.toolCalls.map fun t => (t.id, t.name, t.arguments))]
            ++ m.toolCalls.map (fun t => ChatMsg.toolOutput t.id t.runResult.toStr))
          (tc + m.toolCalls.length)
      else if m.parsed.truthy || optStrTruthy m.content then
        .answered (chatAnswerVal m.parsed m.content)
          (msgs ++ [ChatMsg.assistantContent (chatAnswerText m.parsed m.content)])
          tc
      else
        .raised .unexpectedResponse msgs tc

/-- The `for _ in range(self.max_tool_calls):` loop of the chat-completions
`Agent.run`.  An API exception is re-raised (`raise Exception(...)`), and the
unexpected-response exception propagates. -/
def chatRunAux (maxToolCalls : Int) (script : Nat → CRemote) :
    Nat → Nat → List ChatMsg → Nat → Nat → RunOutcome ChatMsg
  | _, 0, msgs, calls, tools =>
      ⟨.ret (.str (budgetSentinel maxToolCalls)), msgs, calls, tools⟩
  | i, fuel + 1, msgs, calls, tools =>
      match script i with
      | .exn => ⟨.raise .apiFailure, msgs, calls + 1, tools⟩
      | .ok r =>
          match processChoices r.choices msgs tools with
          | .answered v msgs1 tools1 => ⟨.ret v, msgs1, calls + 1, tools1⟩
          | .raised e msgs1 tools1 => ⟨.raise e, msgs1, calls + 1, tools1⟩
          | .moveOn msgs1 tools1 =>
              chatRunAux maxToolCalls script (i + 1) fuel msgs1 (calls + 1) tools1

namespace Chat

/-- `Agent.run(msg)` of `src/ateam/chat/agent.py` against a scripted client. -/
def Agent.run (cfg : AgentCfg) (msg : String) (script : Nat → CRemote) :
    RunOutcome ChatMsg :=
  chatRunAux cfg.maxToolCalls script 0 cfg.maxToolCalls.toNat
    [ChatMsg.system cfg.role, ChatMsg.user msg] 0 0

end Chat

/-! ### Scripted clients used by the loop claims

A scripted tool-call reply and a scripted answer reply, for each variant.
The quadruple (id, name, arguments, run-result) of a requested call is
carried by `ChatToolCall` for both variants. -/

/-- Responses variant: a reply consisting of one `function_call` item. -/
def fcResponse (c : ChatToolCall) : RResponse :=
  ⟨[.functionCall c.id c.name c.arguments c.runResult], .none, ""⟩

/-- Responses variant: a reply consisting of one `message` item. -/
def answerResponse (content : String) (parsed : PyVal) (text : String) :
    RResponse :=
  ⟨[.message content], parsed, text⟩

/-- The two conversation records one executed tool call leaves behind
(responses variant). -/
def fcPair (c : ChatToolCall) : List ConvMsg :=
  [ConvMsg.functionCall c.id c.name c.arguments,
   ConvMsg.functionCallOutput c.id c.runResult.toStr]

def fcPairs : List ChatToolCall → List ConvMsg
  | [] => []
  | c :: cs => fcPair c ++ fcPairs cs

/-- Chat variant: a reply whose single choice requests one tool call. -/
def chatFcResponse (c : ChatToolCall) : ChatResponse :=
  ⟨[⟨⟨[c], .none, Option.none⟩⟩]⟩

/-- Chat variant: a reply whose single choice is an answer. -/
def chatAnswerResponse (parsed : PyVal) (content : Option String) :
    ChatResponse :=
  ⟨[⟨⟨[], parsed, content⟩⟩]⟩

/-- The two conversation records one executed tool call leaves behind
(chat variant). -/
def chatFcPair (c : ChatToolCall) : List ChatMsg :=
  [ChatMsg.assistantToolCalls [(c.id, c.name, c.arguments)],
   ChatMsg.toolOutput c.id c.runResult.toStr]

def chatFcPairs : List ChatToolCall → List ChatMsg
  | [] => []
  | c :: cs => chatFcPair c ++ chatFcPairs cs

/-! ### Predicates on scripted replies -/

def ROutput.isMessage : ROutput → Bool
  | .message _ => true
  | _ => false

def ROutput.isFunctionCall : ROutput → Bool
  | .functionCall .. => true
  | _ => false

/-- A scripted reaction of the responses-variant client that neither raises
nor contains an answer (`message`) item. -/
def neverAnswersR : RRemote → Prop
  | .exn => False
  | .ok r => ∀ o ∈ r.output, o.isMessage = false

/-- A scripted reaction of the chat-variant client that neither raises nor
answers: every choice requests at least one tool call. -/
def neverAnswersC : CRemote → Prop
  | .exn => False
  | .ok r => ∀ ch ∈ r.choices, ch.message.toolCalls ≠ []

/-- Concrete tool classes and initial world used by witnesses. -/
def toolA : ToolClass := ⟨"SimpleTool", ["run"]⟩

def toolB : ToolClass := ⟨"CalculatorTool", ["run"]⟩

def emptyWorld : World := ⟨fun _ => none, 0⟩

/-! ## Concrete configurations and scripts used by the loop witnesses -/

def cW : ChatToolCall :=
  ⟨"call_1", "SimpleTool", "message=hi", .str "SimpleTool processed: hi"⟩

def cfgW : AgentCfg :=
  ⟨"You are a helpful assistant.", "gpt-4.1-nano-2025-04-14", [], 3,
   Option.none, false⟩

def scriptRW : Nat → RRemote
  | 0 => .ok (fcResponse cW)
  | _ => .ok (answerResponse "done" .none "done")

def scriptCW : Nat → CRemote
  | 0 => .ok (chatFcResponse cW)
  | _ => .ok (chatAnswerResponse .none (some "done"))

def cfgW2 : AgentCfg :=
  ⟨"You are a helpful assistant.", "gpt-4.1-nano-2025-04-14", [], 2,
   Option.none, false⟩

def scriptRW2 : Nat → RRemote := fun _ => .ok (fcResponse cW)

def scriptCW2 : Nat → CRemote := fun _ => .ok (chatFcResponse cW)

def cfgC5 : AgentCfg :=
  ⟨"You are a helpful assistant.", "gpt-4.1-nano-2025-04-14", [], 1,
   Option.none, false⟩

def respC5 : RResponse := ⟨[.other], .none, "sometext"⟩

def scriptC5 : Nat → RRemote := fun _ => .ok respC5

def badChoice : ChatChoice := ⟨⟨[], .none, Option.none⟩⟩

def scriptC5c : Nat → CRemote := fun _ => .ok ⟨[badChoice]⟩

def cfgW4 : AgentCfg :=
  ⟨"You are a helpful assistant.", "gpt-4.1-nano-2025-04-14", [], 1,
   Option.none, false⟩

def scriptRW4 : Nat → RRemote := fun _ => .exn

def scriptCW4 : Nat → CRemote := fun _ => .exn

def cfgW10 : AgentCfg :=
  ⟨"You are a helpful assistant.", "gpt-4.1-nano-2025-04-14", [], 0,
   Option.none, false⟩

/-! ### Dict lemmas -/

theorem dictGet_map_update (d : List (String × PyVal)) (k : String) (v : PyVal)
    (hmem : d.any (fun p => p.1 = k) = true) :
    dictGet (d.map (fun p => if p.1 = k then (k, v) else p)) k = some v := by
  induction d with
  | nil => simp at hmem
  | cons q d ih =>
    by_cases hq : q.1 = k
    · simp [dictGet, hq]
    · have hmem' : d.any (fun p => p.1 = k) = true := by
        simpa [List.any_cons, hq] using hmem
      have := ih hmem'
      simp only [List.map_cons, if_neg hq]
      unfold dictGet at this ⊢
      rw [List.find?_cons_of_neg _ (by simpa using hq)]
      exact this

theorem dictGet_append_new (d : List (String × PyVal)) (k : String) (v : PyVal)
    (hmem : d.any (fun p => p.1 = k) = false) :
    dictGet (d ++ [(k, v)]) k = some v := by
  induction d with
  | nil => simp [dictGet]
  | cons q d ih =>
    have hq : ¬(q.1 = k) := by
      intro h
      simp [List.any_cons, h] at hmem
    have hmem' : d.any (fun p => p.1 = k) = false := by
      simpa [List.any_cons, hq] using hmem
    have := ih hmem'
    unfold dictGet at this ⊢
    rw [List.cons_append, List.find?_cons_of_neg _ (by simpa using hq)]
    exact this

theorem dictGet_dictSet_self (d : List (String × PyVal)) (k : String)
    (v : PyVal) : dictGet (dictSet d k v) k = some v := by
  unfold dictSet
  cases hmem : d.any (fun p => p.1 = k) with
  | true =>
    rw [if_pos rfl]
    exact dictGet_map_update d k v hmem
  | false =>
    rw [if_neg (by simp)]
    exact dictGet_append_new d k v hmem

theorem SharedState.get_set_same (st : SharedState) (k : String) (v d : PyVal) :
    ((st.set (.str k) v).bind (fun st' => st'.get (.str k) d)) = .ok v := by
  simp [SharedState.set, SharedState.get, Except.bind, dictGet_dictSet_self]

/-! ## The claims: SharedState -/

/-- C6: for every SharedState, `set` then `get` with the same key returns the
set value; `get` on an absent key returns the supplied default (and the Python
`None` value when no default is supplied); and after two `set` calls on the
same key, the last value wins. -/
theorem sharedState_set_get_roundtrip (st : SharedState) (k : String)
    (v v1 v2 d : PyVal) (habsent : dictGet st.data k = none) :
    ((st.set (.str k) v).bind (fun st' => st'.get (.str k) d)) = .ok v ∧
    st.get (.str k) d = .ok d ∧
    st.get (.str k) = .ok PyVal.none ∧
    ((st.set (.str k) v1).bind (fun st1 =>
      (st1.set (.str k) v2).bind (fun st2 => st2.get (.str k) d))) = .ok v2 := by
  refine ⟨SharedState.get_set_same st k v d, ?_, ?_, ?_⟩
  · simp [SharedState.get, habsent]
  · simp [SharedState.get, habsent]
  · simp only [SharedState.set, Except.bind]
    exact SharedState.get_set_same ⟨dictSet st.data k v1⟩ k v2 d

/-- Witness for C6 at a concrete state, key and values. -/
theorem sharedState_set_get_roundtrip_witness :
    ((SharedState.init.set (.str "counter") (.int 1)).bind
      (fun st' => st'.get (.str "counter") (.int 7))) = .ok (.int 1) ∧
    SharedState.init.get (.str "counter") (.int 7) = .ok (.int 7) ∧
    SharedState.init.get (.str "counter") = .ok PyVal.none ∧
    ((SharedState.init.set (.str "counter") (.int 1)).bind (fun st1 =>
      (st1.set (.str "counter") (.int 2)).bind
        (fun st2 => st2.get (.str "counter") (.int 7)))) = .ok (.int 2) :=
  sharedState_set_get_roundtrip SharedState.init "counter"
    (.int 1) (.int 1) (.int 2) (.int 7) (by decide)

/-- C7: `set` and `get` with a non-string key always raise the key-type
`ValueError`, and a string-keyed `set` overwrites any prior value for that
key. -/
theorem sharedState_key_type_and_overwrite (st : SharedState) (key : PyKey)
    (v w d : PyVal) (k : String) (hk : key.isStr = false) :
    st.set key v = .error (.valueError "`key` must be a string") ∧
    st.get key d = .error (.valueError "`key` must be a string") ∧
    ((st.set (.str k) w).bind (fun st' => st'.get (.str k) d)) = .ok w := by
  refine ⟨?_, ?_, SharedState.get_set_same st k w d⟩
  · cases key <;> simp_all [SharedState.set, PyKey.isStr]
  · cases key <;> simp_all [SharedState.get, PyKey.isStr]

/-- Witness for C7 with an int key and an overwritten string key. -/
theorem sharedState_key_type_and_overwrite_witness :
    (SharedState.mk [("x", .int 1)]).set (.int 3) (.int 9)
      = .error (.valueError "`key` must be a string") ∧
    (SharedState.mk [("x", .int 1)]).get (.int 3) (.int 0)
      = .error (.valueError "`key` must be a string") ∧
    (((SharedState.mk [("x", .int 1)]).set (.str "x") (.int 2)).bind
      (fun st' => st'.get (.str "x") (.int 0))) = .ok (.int 2) :=
  sharedState_key_type_and_overwrite ⟨[("x", .int 1)]⟩ (.int 3)
    (.int 9) (.int 2) (.int 0) "x" (by decide)

/-! ### Loop lemmas: consuming a prefix of tool-call replies -/

theorem respRunAux_toolPrefix (mtc : Int) (script : Nat → RRemote)
    (cs : List ChatToolCall) :
    ∀ i fuel msgs calls tools,
      cs.length ≤ fuel →
      (∀ j (hj : j < cs.length), script (i + j) = .ok (fcResponse (cs.get ⟨j, hj⟩))) →
      respRunAux mtc script i fuel msgs calls tools =
        respRunAux mtc script (i + cs.length) (fuel - cs.length)
          (msgs ++ fcPairs cs) (calls + cs.length) (tools + cs.length) := by
  induction cs with
  | nil =>
    intro i fuel msgs calls tools _ _
    simp [fcPairs]
  | cons c cs ih =>
    intro i fuel msgs calls tools hle hscript
    obtain ⟨fuel, rfl⟩ : ∃ f, fuel = f + 1 :=
      ⟨fuel - 1, by simp at hle; omega⟩
    have h0 : script i = .ok (fcResponse c) := by
      simpa using hscript 0 (by simp)
    rw [respRunAux, h0]
    simp only [fcResponse, processROutputs]
    have htail : ∀ j (hj : j < cs.length),
        script ((i + 1) + j) = .ok (fcResponse (cs.get ⟨j, hj⟩)) := by
      intro j hj
      have := hscript (j + 1) (by simp; omega)
      rw [show i + (j + 1) = (i + 1) + j by omega] at this
      simpa using this
    have := ih (i + 1) fuel
      (msgs ++ [ConvMsg.functionCall c.id c.name c.arguments,
                ConvMsg.functionCallOutput c.id c.runResult.toStr])
      (calls + 1) (tools + 1) (by simp at hle; omega) htail
    rw [this]
    have e1 : (i + 1) + cs.length = i + (c :: cs).length := by simp; omega
    have e2 : fuel - cs.length = fuel + 1 - (c :: cs).length := by simp
    have e3 : (calls + 1) + cs.length = calls + (c :: cs).length := by simp; omega
    have e4 : (tools + 1) + cs.length = tools + (c :: cs).length := by simp; omega
    rw [e1, e2, e3, e4]
    congr 1
    simp [fcPairs, fcPair]

theorem chatRunAux_toolPrefix (mtc : Int) (script : Nat → CRemote)
    (cs : List ChatToolCall) :
    ∀ i fuel msgs calls tools,
      cs.length ≤ fuel →
      (∀ j (hj : j < cs.length),
        script (i + j) = .ok (chatFcResponse (cs.get ⟨j, hj⟩))) →
      chatRunAux mtc script i fuel msgs calls tools =
        chatRunAux mtc script (i + cs.length) (fuel - cs.length)
          (msgs ++ chatFcPairs cs) (calls + cs.length) (tools + cs.length) := by
  induction cs with
  | nil =>
    intro i fuel msgs calls tools _ _
    simp [chatFcPairs]
  | cons c cs ih =>
    intro i fuel msgs calls tools hle hscript
    obtain ⟨fuel, rfl⟩ : ∃ f, fuel = f + 1 :=
      ⟨fuel - 1, by simp at hle; omega⟩
    have h0 : script i = .ok (chatFcResponse c) := by
      simpa using hscript 0 (by simp)
    have hstep : chatRunAux mtc script i (fuel + 1) msgs calls tools
        = chatRunAux mtc script (i + 1) fuel
          (msgs ++ [ChatMsg.assistantToolCalls [(c.id, c.name, c.arguments)]]
                ++ [ChatMsg.toolOutput c.id c.runResult.toStr])
          (calls + 1) (tools + 1) := by
      rw [chatRunAux, h0]
      rfl
    rw [hstep]
    have htail : ∀ j (hj : j < cs.length),
        script ((i + 1) + j) = .ok (chatFcResponse (cs.get ⟨j, hj⟩)) := by
      intro j hj
      have := hscript (j + 1) (by simp; omega)
      rw [show i + (j + 1) = (i + 1) + j by omega] at this
      simpa using this
    have := ih (i + 1) fuel
      (msgs ++ [ChatMsg.assistantToolCalls [(c.id, c.name, c.arguments)]]
            ++ [ChatMsg.toolOutput c.id c.runResult.toStr])
      (calls + 1) (tools + 1) (by simp at hle; omega) htail
    simp only [List.length_cons] at this ⊢
    rw [this]
    have e1 : (i + 1) + cs.length = i + (cs.length + 1) := by omega
    have e2 : fuel - cs.length = fuel + 1 - (cs.length + 1) := by omega
    have e3 : (calls + 1) + cs.length = calls + (cs.length + 1) := by omega
    have e4 : (tools + 1) + cs.length = tools + (cs.length + 1) := by omega
    rw [e1, e2, e3, e4]
    congr 1
    simp [chatFcPairs, chatFcPair]

/-! ### Loop lemmas: clients that never answer, and raise-freedom of the
responses variant -/

theorem processROutputs_noMessage (p : PyVal) (t : String) (outs : List ROutput)
    (h : ∀ o ∈ outs, o.isMessage = false) :
    ∀ msgs tc, (processROutputs p t outs msgs tc).1 = none := by
  induction outs with
  | nil => intro msgs tc; rfl
  | cons o rest ih =>
    intro msgs tc
    have hrest : ∀ o ∈ rest, o.isMessage = false := fun o ho => h o (by simp [ho])
    cases o with
    | message c => exact absurd (h (.message c) (by simp)) (by simp [ROutput.isMessage])
    | functionCall callId name args res =>
      simpa [processROutputs] using ih hrest _ _
    | other => simpa [processROutputs] using ih hrest _ _

theorem processChoices_noAnswer (chs : List ChatChoice)
    (h : ∀ ch ∈ chs, ch.message.toolCalls ≠ []) :
    ∀ msgs tc, ∃ msgs1 tc1, processChoices chs msgs tc = .moveOn msgs1 tc1 := by
  induction chs with
  | nil => intro msgs tc; exact ⟨msgs, tc, rfl⟩
  | cons ch rest ih =>
    intro msgs tc
    have hrest : ∀ c ∈ rest, c.message.toolCalls ≠ [] :=
      fun c hc => h c (by simp [hc])
    have hch : ch.message.toolCalls ≠ [] := h ch (by simp)
    obtain ⟨m1, t1, hmo⟩ := ih hrest
      (msgs
        ++ [ChatMsg.assistantToolCalls
              (ch.message.toolCalls.map fun t => (t.id, t.name, t.arguments))]
        ++ ch.message.toolCalls.map
             (fun t => ChatMsg.toolOutput t.id t.runResult.toStr))
      (tc + ch.message.toolCalls.length)
    refine ⟨m1, t1, ?_⟩
    simp only [processChoices]
    rw [if_pos hch]
    exact hmo

theorem respRunAux_neverAnswers (mtc : Int) (script : Nat → RRemote)
    (h : ∀ i, neverAnswersR (script i)) :
    ∀ fuel i msgs calls tools,
      (respRunAux mtc script i fuel msgs calls tools).result
          = .ret (.str (budgetSentinel mtc)) ∧
      (respRunAux mtc script i fuel msgs calls tools).remoteCalls
          = calls + fuel := by
  intro fuel
  induction fuel with
  | zero => intro i msgs calls tools; exact ⟨rfl, rfl⟩
  | succ fuel ih =>
    intro i msgs calls tools
    cases hsi : script i with
    | exn => exact absurd (h i) (by rw [hsi]; simp [neverAnswersR])
    | ok r =>
      have hnone : (processROutputs r.outputParsed r.outputText r.output
          msgs tools).1 = none := by
        apply processROutputs_noMessage
        have := h i
        rw [hsi] at this
        exact this
      rcases hpr : processROutputs r.outputParsed r.outputText r.output
          msgs tools with ⟨fst, msgs1, tools1⟩
      rw [hpr] at hnone
      subst hnone
      simp only [respRunAux, hsi, hpr]
      have := ih (i + 1) msgs1 (calls + 1) tools1
      exact ⟨this.1, by rw [this.2]; omega⟩

theorem chatRunAux_neverAnswers (mtc : Int) (script : Nat → CRemote)
    (h : ∀ i, neverAnswersC (script i)) :
    ∀ fuel i msgs calls tools,
      (chatRunAux mtc script i fuel msgs calls tools).result
          = .ret (.str (budgetSentinel mtc)) ∧
      (chatRunAux mtc script i fuel msgs calls tools).remoteCalls
          = calls + fuel := by
  intro fuel
  induction fuel with
  | zero => intro i msgs calls tools; exact ⟨rfl, rfl⟩
  | succ fuel ih =>
    intro i msgs calls tools
    cases hsi : script i with
    | exn => exact absurd (h i) (by rw [hsi]; simp [neverAnswersC])
    | ok r =>
      have hchs : ∀ ch ∈ r.choices, ch.message.toolCalls ≠ [] := by
        have := h i
        rw [hsi] at this
        exact this
      obtain ⟨msgs1, tools1, hmo⟩ := processChoices_noAnswer r.choices hchs msgs tools
      simp only [chatRunAux, hsi, hmo]
      have := ih (i + 1) msgs1 (calls + 1) tools1
      exact ⟨this.1, by rw [this.2]; omega⟩

theorem respRunAux_never_raises (mtc : Int) (script : Nat → RRemote) :
    ∀ fuel i msgs calls tools,
      ∃ v, (respRunAux mtc script i fuel msgs calls tools).result = .ret v := by
  intro fuel
  induction fuel with
  | zero => intro i msgs calls tools; exact ⟨_, rfl⟩
  | succ fuel ih =>
    intro i msgs calls tools
    cases hsi : script i with
    | exn => simp only [respRunAux, hsi]; exact ⟨_, rfl⟩
    | ok r =>
      rcases hpr : processROutputs r.outputParsed r.outputText r.output
          msgs tools with ⟨fst, msgs1, tools1⟩
      cases fst with
      | none =>
        simp only [respRunAux, hsi, hpr]
        exact ih (i + 1) msgs1 (calls + 1) tools1
      | some v =>
        simp only [respRunAux, hsi, hpr]
        exact ⟨v, rfl⟩

/-! ### Registration lemmas -/

theorem registerTools_schemas (sid : Nat) (ts : List ToolClass) :
    ∀ acc b, (registerTools sid ts acc b).1 = acc ++ ts.map (fun t => ⟨t.name⟩) := by
  induction ts with
  | nil => intro acc b; simp [registerTools]
  | cons t ts ih =>
    intro acc b
    simp [registerTools, ih]

theorem registerTools_binding_preserved (sid : Nat) (ts : List ToolClass) :
    ∀ acc b t, b t = some sid → (registerTools sid ts acc b).2 t = some sid := by
  induction ts with
  | nil => intro acc b t h; simpa [registerTools] using h
  | cons u ts ih =>
    intro acc b t h
    unfold registerTools
    apply ih
    by_cases htu : t = u <;> simp [htu, h]

theorem registerTools_binds_all (sid : Nat) (ts : List ToolClass) :
    ∀ acc b t, t ∈ ts → (registerTools sid ts acc b).2 t = some sid := by
  induction ts with
  | nil => intro acc b t h; simp at h
  | cons u ts ih =>
    intro acc b t h
    unfold registerTools
    rcases List.mem_cons.mp h with h | h
    · subst h
      by_cases ht : t ∈ ts
      · exact ih _ _ t ht
      · exact registerTools_binding_preserved sid ts _ _ t (by simp)
    · exact ih _ _ t h

/-! ## The claims: agent construction and tool instantiation -/

/-- C9: an Agent constructed with a list of N tool classes generates exactly
N remote-callable schema descriptors (one per tool, in order), and every
listed tool class is bound to that Agent's fresh SharedState — whatever it
was bound to before.  This holds for the responses-variant constructor and
for `BaseAgent.__init__` whenever it returns. -/
theorem agent_init_tool_registration (w : World) (role model : String)
    (ts : List ToolClass) (m : Int) (fmt : Option String) (vb : Bool) :
    (∀ a w', Agent.init w role model (some ts) m fmt vb = .ok (a, w') →
      a.openaiToolsSchema.length = ts.length ∧
      a.openaiToolsSchema = ts.map (fun t => ⟨t.name⟩) ∧
      ∀ t ∈ ts, w'.bindings t = some a.sharedStateId) ∧
    (∀ a w', BaseAgent.init w role model (some ts) m fmt vb = .ok (a, w') →
      a.openaiToolsSchema.length = ts.length ∧
      a.openaiToolsSchema = ts.map (fun t => ⟨t.name⟩) ∧
      ∀ t ∈ ts, w'.bindings t = some a.sharedStateId) := by
  have hs : (agentInitBody w role model (some ts) m fmt vb).1.openaiToolsSchema
      = ts.map (fun t => ⟨t.name⟩) := by
    simp only [agentInitBody]
    simpa using registerTools_schemas w.nextStateId ts [] w.bindings
  have hb : ∀ t ∈ ts,
      (agentInitBody w role model (some ts) m fmt vb).2.bindings t
        = some (agentInitBody w role model (some ts) m fmt vb).1.sharedStateId := by
    intro t ht
    simp only [agentInitBody]
    exact registerTools_binds_all w.nextStateId ts [] w.bindings t ht
  have hbody : ∀ a w',
      agentInitBody w role model (some ts) m fmt vb = (a, w') →
      a.openaiToolsSchema.length = ts.length ∧
      a.openaiToolsSchema = ts.map (fun t => ⟨t.name⟩) ∧
      ∀ t ∈ ts, w'.bindings t = some a.sharedStateId := by
    intro a w' h
    rw [h] at hs hb
    exact ⟨by rw [hs]; simp, hs, hb⟩
  constructor
  · intro a w' h
    unfold Agent.init at h
    exact hbody a w' (Except.ok.inj h)
  · intro a w' h
    unfold BaseAgent.init at h
    split at h
    · exact absurd h (by simp)
    · exact hbody a w' (Except.ok.inj h)

/-- Witness for C9 with two tool classes. -/
theorem agent_init_tool_registration_witness :
    (agentInitBody emptyWorld "r" "gpt-4.1-nano-2025-04-14" (some [toolA, toolB])
      11 Option.none false).1.openaiToolsSchema.length = 2 ∧
    (agentInitBody emptyWorld "r" "gpt-4.1-nano-2025-04-14" (some [toolA, toolB])
      11 Option.none false).2.bindings toolA =
      some (agentInitBody emptyWorld "r" "gpt-4.1-nano-2025-04-14"
        (some [toolA, toolB]) 11 Option.none false).1.sharedStateId ∧
    (agentInitBody emptyWorld "r" "gpt-4.1-nano-2025-04-14" (some [toolA, toolB])
      11 Option.none false).2.bindings toolB =
      some (agentInitBody emptyWorld "r" "gpt-4.1-nano-2025-04-14"
        (some [toolA, toolB]) 11 Option.none false).1.sharedStateId := by
  have h := (agent_init_tool_registration emptyWorld "r" "gpt-4.1-nano-2025-04-14"
    [toolA, toolB] 11 Option.none false).1 _ _ rfl
  exact ⟨h.1, h.2.2 toolA (by simp), h.2.2 toolB (by simp)⟩

/-- C3 counterexample: the claim quantifies over every Agent, but the
responses-variant constructor (`src/ateam/agent.py`) performs no
gemini compatibility check: constructing it with a gemini model, a
structured-output schema and a non-empty tool list succeeds. -/
theorem agent_init_gemini_counterexample :
    isOkE (Agent.init emptyWorld "You are a helpful assistant."
      "gemini-2.0-flash-lite-001" (some [toolA]) 11 (some "OutputFormat") false)
      = true := rfl

/-- C3 amended: constructing an Agent **through `BaseAgent.__init__`** (the
chat-completions variant) with a gemini-family model, a structured-output
schema, and a non-empty tool list raises the configuration-incompatibility
`ValueError` synchronously at construction; the responses-variant
constructor performs no such check. -/
theorem baseAgent_init_gemini_guard (w : World) (role model : String)
    (ts : List ToolClass) (m : Int) (fmt : String) (vb : Bool)
    (hmodel : strStartsWith model "gemini-" = true) (_hts : ts ≠ []) :
    BaseAgent.init w role model (some ts) m (some fmt) vb = .error geminiError := by
  unfold BaseAgent.init
  simp [hmodel]

/-- Witness for the amended C3 at the tested gemini model. -/
theorem baseAgent_init_gemini_guard_witness :
    BaseAgent.init emptyWorld "You are a helpful assistant."
      "gemini-2.0-flash-lite-001" (some [toolA]) 11 (some "OutputFormat") false
      = .error geminiError :=
  baseAgent_init_gemini_guard emptyWorld "You are a helpful assistant."
    "gemini-2.0-flash-lite-001" [toolA] 11 "OutputFormat" false (by decide) (by simp)

/-- C8: instantiating a tool class whose method table does not implement
`run` fails at instantiation with the abc `TypeError`, for every field
assignment and independently of the pydantic validation verdict — the check
is structural (on the defined-method set), not a naming convention. -/
theorem instantiate_incomplete_tool_fails (w : World) (c : ToolClass)
    (fields : List (String × PyVal)) (fieldsValid : Bool)
    (h : "run" ∉ c.definedMethods) :
    instantiateTool w c fields fieldsValid = .error (.typeError
      ("Cannot instantiate abstract class " ++ c.name ++ " with abstract method run")) := by
  unfold instantiateTool
  simp [h]

/-- Witness for C8: a tool class that defines other methods but not `run`. -/
theorem instantiate_incomplete_tool_fails_witness :
    instantiateTool emptyWorld ⟨"IncompleteToolClass", ["helper"]⟩
      [("name", .str "test")] true = .error (.typeError
      ("Cannot instantiate abstract class " ++ "IncompleteToolClass"
        ++ " with abstract method run")) :=
  instantiate_incomplete_tool_fails emptyWorld ⟨"IncompleteToolClass", ["helper"]⟩
    [("name", .str "test")] true (by decide)

/-! ## The claims: the conversational loop -/

/-- C1: for every Agent and every scripted client replying with K tool-call
responses followed by one answer response (K < max_tool_calls), `run` returns
the answer, and the conversation holds exactly the K tool-call/tool-output
pairs in request order (between the seed entries and the final answer entry);
K+1 remote calls are made and K tools executed.  Both variants. -/
theorem agent_run_tool_loop (cfg : AgentCfg) (msg : String)
    (cs : List ChatToolCall)
    (scriptR : Nat → RRemote) (content : String) (parsed : PyVal) (text : String)
    (scriptC : Nat → CRemote) (ansParsed : PyVal) (ansContent : Option String)
    (hK : (cs.length : Int) < cfg.maxToolCalls)
    (hpreR : ∀ j (hj : j < cs.length),
      scriptR j = .ok (fcResponse (cs.get ⟨j, hj⟩)))
    (hansR : scriptR cs.length = .ok (answerResponse content parsed text))
    (hpreC : ∀ j (hj : j < cs.length),
      scriptC j = .ok (chatFcResponse (cs.get ⟨j, hj⟩)))
    (hansC : scriptC cs.length = .ok (chatAnswerResponse ansParsed ansContent))
    (hansT : (ansParsed.truthy || optStrTruthy ansContent) = true) :
    Agent.run cfg msg scriptR =
      ⟨.ret (pyOrText parsed text),
       [ConvMsg.system cfg.role, ConvMsg.user msg] ++ fcPairs cs
         ++ [ConvMsg.assistantMessage content],
       cs.length + 1, cs.length⟩ ∧
    Chat.Agent.run cfg msg scriptC =
      ⟨.ret (chatAnswerVal ansParsed ansContent),
       [ChatMsg.system cfg.role, ChatMsg.user msg] ++ chatFcPairs cs
         ++ [ChatMsg.assistantContent (chatAnswerText ansParsed ansContent)],
       cs.length + 1, cs.length⟩ := by
  have hfuel : cs.length < cfg.maxToolCalls.toNat := by omega
  constructor
  · unfold Agent.run
    rw [respRunAux_toolPrefix cfg.maxToolCalls scriptR cs 0 cfg.maxToolCalls.toNat
      [ConvMsg.system cfg.role, ConvMsg.user msg] 0 0 (Nat.le_of_lt hfuel)
      (fun j hj => by simpa using hpreR j hj)]
    simp only [Nat.zero_add]
    obtain ⟨f, hf⟩ : ∃ f, cfg.maxToolCalls.toNat - cs.length = f + 1 :=
      ⟨cfg.maxToolCalls.toNat - cs.length - 1, by omega⟩
    rw [hf]
    simp only [respRunAux, hansR, answerResponse, processROutputs]
  · unfold Chat.Agent.run
    rw [chatRunAux_toolPrefix cfg.maxToolCalls scriptC cs 0 cfg.maxToolCalls.toNat
      [ChatMsg.system cfg.role, ChatMsg.user msg] 0 0 (Nat.le_of_lt hfuel)
      (fun j hj => by simpa using hpreC j hj)]
    simp only [Nat.zero_add]
    obtain ⟨f, hf⟩ : ∃ f, cfg.maxToolCalls.toNat - cs.length = f + 1 :=
      ⟨cfg.maxToolCalls.toNat - cs.length - 1, by omega⟩
    rw [hf]
    simp only [chatRunAux, hansC, chatAnswerResponse, processChoices]
    rw [if_neg (by simp), if_pos hansT]

/-- Witness for C1: one scripted tool call, then an answer. -/
theorem agent_run_tool_loop_witness :
    Agent.run cfgW "q" scriptRW =
      ⟨.ret (pyOrText .none "done"),
       [ConvMsg.system cfgW.role, ConvMsg.user "q"] ++ fcPairs [cW]
         ++ [ConvMsg.assistantMessage "done"],
       1 + 1, 1⟩ ∧
    Chat.Agent.run cfgW "q" scriptCW =
      ⟨.ret (chatAnswerVal .none (some "done")),
       [ChatMsg.system cfgW.role, ChatMsg.user "q"] ++ chatFcPairs [cW]
         ++ [ChatMsg.assistantContent (chatAnswerText .none (some "done"))],
       1 + 1, 1⟩ :=
  agent_run_tool_loop cfgW "q" [cW] scriptRW "done" .none "done"
    scriptCW .none (some "done")
    (by decide)
    (fun j hj => by
      simp only [List.length_singleton] at hj
      have hj0 : j = 0 := by omega
      subst hj0; rfl)
    rfl
    (fun j hj => by
      simp only [List.length_singleton] at hj
      have hj0 : j = 0 := by omega
      subst hj0; rfl)
    rfl
    (by decide)

/-- C2: against a scripted client that never returns an answer item (and
never fails), `run` performs exactly `max_tool_calls` loop iterations (remote
calls) and returns the budget-exhausted sentinel.  Both variants. -/
theorem agent_run_budget_exhausted (cfg : AgentCfg) (msg : String)
    (scriptR : Nat → RRemote) (scriptC : Nat → CRemote)
    (hR : ∀ i, neverAnswersR (scriptR i))
    (hC : ∀ i, neverAnswersC (scriptC i))
    (hpos : 0 ≤ cfg.maxToolCalls) :
    (Agent.run cfg msg scriptR).result
        = .ret (.str (budgetSentinel cfg.maxToolCalls)) ∧
    ((Agent.run cfg msg scriptR).remoteCalls : Int) = cfg.maxToolCalls ∧
    (Chat.Agent.run cfg msg scriptC).result
        = .ret (.str (budgetSentinel cfg.maxToolCalls)) ∧
    ((Chat.Agent.run cfg msg scriptC).remoteCalls : Int) = cfg.maxToolCalls := by
  unfold Agent.run Chat.Agent.run
  have h1 := respRunAux_neverAnswers cfg.maxToolCalls scriptR hR
    cfg.maxToolCalls.toNat 0 [ConvMsg.system cfg.role, ConvMsg.user msg] 0 0
  have h2 := chatRunAux_neverAnswers cfg.maxToolCalls scriptC hC
    cfg.maxToolCalls.toNat 0 [ChatMsg.system cfg.role, ChatMsg.user msg] 0 0
  refine ⟨h1.1, ?_, h2.1, ?_⟩
  · rw [h1.2]; omega
  · rw [h2.2]; omega

/-- Witness for C2: a budget of 2 against clients that always request one
tool call. -/
theorem agent_run_budget_exhausted_witness :
    (Agent.run cfgW2 "go" scriptRW2).result
        = .ret (.str (budgetSentinel 2)) ∧
    ((Agent.run cfgW2 "go" scriptRW2).remoteCalls : Int) = 2 ∧
    (Chat.Agent.run cfgW2 "go" scriptCW2).result
        = .ret (.str (budgetSentinel 2)) ∧
    ((Chat.Agent.run cfgW2 "go" scriptCW2).remoteCalls : Int) = 2 :=
  agent_run_budget_exhausted cfgW2 "go" scriptRW2 scriptCW2
    (fun _ => by
      simp [neverAnswersR, scriptRW2, fcResponse, ROutput.isMessage])
    (fun _ => by
      simp [neverAnswersC, scriptCW2, chatFcResponse])
    (by decide)

/-- C4: when the remote call fails during the loop (after any prefix of
tool-call responses), there is no retry: the responses-shape variant catches
the exception and returns the error string, while the chat-completions
variant raises the call-failure exception. -/
theorem agent_run_remote_failure (cfg : AgentCfg) (msg : String)
    (cs : List ChatToolCall) (scriptR : Nat → RRemote) (scriptC : Nat → CRemote)
    (hK : (cs.length : Int) < cfg.maxToolCalls)
    (hpreR : ∀ j (hj : j < cs.length),
      scriptR j = .ok (fcResponse (cs.get ⟨j, hj⟩)))
    (hfailR : scriptR cs.length = .exn)
    (hpreC : ∀ j (hj : j < cs.length),
      scriptC j = .ok (chatFcResponse (cs.get ⟨j, hj⟩)))
    (hfailC : scriptC cs.length = .exn) :
    (Agent.run cfg msg scriptR).result
        = .ret (.str "Error: OpenAI API call failed") ∧
    (Chat.Agent.run cfg msg scriptC).result = .raise .apiFailure := by
  have hfuel : cs.length < cfg.maxToolCalls.toNat := by omega
  constructor
  · unfold Agent.run
    rw [respRunAux_toolPrefix cfg.maxToolCalls scriptR cs 0 cfg.maxToolCalls.toNat
      [ConvMsg.system cfg.role, ConvMsg.user msg] 0 0 (Nat.le_of_lt hfuel)
      (fun j hj => by simpa using hpreR j hj)]
    simp only [Nat.zero_add]
    obtain ⟨f, hf⟩ : ∃ f, cfg.maxToolCalls.toNat - cs.length = f + 1 :=
      ⟨cfg.maxToolCalls.toNat - cs.length - 1, by omega⟩
    rw [hf]
    simp only [respRunAux, hfailR]
  · unfold Chat.Agent.run
    rw [chatRunAux_toolPrefix cfg.maxToolCalls scriptC cs 0 cfg.maxToolCalls.toNat
      [ChatMsg.system cfg.role, ChatMsg.user msg] 0 0 (Nat.le_of_lt hfuel)
      (fun j hj => by simpa using hpreC j hj)]
    simp only [Nat.zero_add]
    obtain ⟨f, hf⟩ : ∃ f, cfg.maxToolCalls.toNat - cs.length = f + 1 :=
      ⟨cfg.maxToolCalls.toNat - cs.length - 1, by omega⟩
    rw [hf]
    simp only [chatRunAux, hfailC]

/-- Witness for C4: the first remote call fails. -/
theorem agent_run_remote_failure_witness :
    (Agent.run cfgW4 "go" scriptRW4).result
        = .ret (.str "Error: OpenAI API call failed") ∧
    (Chat.Agent.run cfgW4 "go" scriptCW4).result = .raise .apiFailure :=
  agent_run_remote_failure cfgW4 "go" [] scriptRW4 scriptCW4
    (by decide)
    (fun j hj => absurd hj (by simp))
    rfl
    (fun j hj => absurd hj (by simp))
    rfl

/-- C10: with a non-positive `max_tool_calls` budget, `run` returns the
budget-exhausted sentinel at once — the seeded conversation is untouched, no
remote call is issued and no tool executed.  Both variants. -/
theorem agent_run_nonpositive_budget (cfg : AgentCfg) (msg : String)
    (scriptR : Nat → RRemote) (scriptC : Nat → CRemote)
    (h : cfg.maxToolCalls ≤ 0) :
    Agent.run cfg msg scriptR =
      ⟨.ret (.str (budgetSentinel cfg.maxToolCalls)),
       [ConvMsg.system cfg.role, ConvMsg.user msg], 0, 0⟩ ∧
    Chat.Agent.run cfg msg scriptC =
      ⟨.ret (.str (budgetSentinel cfg.maxToolCalls)),
       [ChatMsg.system cfg.role, ChatMsg.user msg], 0, 0⟩ := by
  have h0 : cfg.maxToolCalls.toNat = 0 := by omega
  unfold Agent.run Chat.Agent.run
  rw [h0]
  exact ⟨rfl, rfl⟩

/-- Witness for C10 at a zero budget. -/
theorem agent_run_nonpositive_budget_witness :
    Agent.run cfgW10 "go" scriptRW4 =
      ⟨.ret (.str (budgetSentinel cfgW10.maxToolCalls)),
       [ConvMsg.system cfgW10.role, ConvMsg.user "go"], 0, 0⟩ ∧
    Chat.Agent.run cfgW10 "go" scriptCW4 =
      ⟨.ret (.str (budgetSentinel cfgW10.maxToolCalls)),
       [ChatMsg.system cfgW10.role, ChatMsg.user "go"], 0, 0⟩ :=
  agent_run_nonpositive_budget cfgW10 "go" scriptRW4 scriptCW4 (by decide)

/-- C5 counterexample: on the responses variant, a response whose only output
item is neither a `message` item nor a `function_call` item is silently
skipped — `run` returns the budget sentinel, it does not raise the
unexpected-response error. -/
theorem run_unrecognized_item_counterexample :
    ROutput.other.isMessage = false ∧
    ROutput.other.isFunctionCall = false ∧
    (Agent.run cfgC5 "hi" scriptC5).result = .ret (.str (budgetSentinel 1)) ∧
    (Agent.run cfgC5 "hi" scriptC5).result ≠ .raise .unexpectedResponse := by
  refine ⟨rfl, rfl, rfl, ?_⟩
  intro h
  rw [show (Agent.run cfgC5 "hi" scriptC5).result
      = .ret (.str (budgetSentinel 1)) from rfl] at h
  exact RunRes.noConfusion h

/-- C5 amended: the unexpected-response-shape error is raised by the
chat-completions variant when a response choice has neither tool calls nor a
truthy parsed/content answer; the responses-shape variant never raises at
all — it skips unrecognized output items and continues the loop. -/
theorem chat_unexpected_response_raises (cfg : AgentCfg) (msg : String)
    (scriptC : Nat → CRemote) (ch : ChatChoice) (rest : List ChatChoice)
    (hpos : 0 < cfg.maxToolCalls)
    (hs : scriptC 0 = .ok ⟨ch :: rest⟩)
    (htc : ch.message.toolCalls = [])
    (hparsed : ch.message.parsed.truthy = false)
    (hcontent : optStrTruthy ch.message.content = false) :
    (Chat.Agent.run cfg msg scriptC).result = .raise .unexpectedResponse ∧
    ∀ (cfgR : AgentCfg) (msgR : String) (scriptR : Nat → RRemote) (e : PyExn),
      (Agent.run cfgR msgR scriptR).result ≠ .raise e := by
  constructor
  · unfold Chat.Agent.run
    obtain ⟨f, hf⟩ : ∃ f, cfg.maxToolCalls.toNat = f + 1 :=
      ⟨cfg.maxToolCalls.toNat - 1, by omega⟩
    rw [hf]
    simp only [chatRunAux, hs, processChoices]
    rw [if_neg (by simp [htc]), if_neg (by simp [hparsed, hcontent])]
  · intro cfgR msgR scriptR e h
    obtain ⟨v, hv⟩ := respRunAux_never_raises cfgR.maxToolCalls scriptR
      cfgR.maxToolCalls.toNat 0 [ConvMsg.system cfgR.role, ConvMsg.user msgR] 0 0
    unfold Agent.run at h
    rw [hv] at h
    exact RunRes.noConfusion h

/-- Witness for the amended C5: a concrete empty choice makes the chat
variant raise, while the responses variant never raises. -/
theorem chat_unexpected_response_raises_witness :
    (Chat.Agent.run cfgC5 "hi" scriptC5c).result = .raise .unexpectedResponse ∧
    (Agent.run cfgC5 "hi" scriptC5).result ≠ .raise .unexpectedResponse :=
  ⟨(chat_unexpected_response_raises cfgC5 "hi" scriptC5c badChoice []
      (by decide) rfl rfl rfl rfl).1,
   (chat_unexpected_response_raises cfgC5 "hi" scriptC5c badChoice []
      (by decide) rfl rfl rfl rfl).2 cfgC5 "hi" scriptC5 .unexpectedResponse⟩

end ATeam
